import Mathlib

/-!
Verification of the ph-interpreters repository: a shallow embedding of
the Result type (result.py), the parser-combinator engine
(parser_combinator.py), the grammar (ast_.py) and the tree-walking
evaluator (interpreter.py), together with theorems settling the frozen
claims about the specification.

Modelling conventions:
- Python strings are modelled as `List Char`; `input[k:]` is `List.drop`,
  `startswith` is `List.isPrefixOf`, `lstrip` is `List.dropWhile` over the
  Python whitespace set.
- Python in-place dictionary mutation is modelled by explicit state
  threading; `dict.copy()` at a call boundary is modelled by passing the
  current association list to the callee and resuming the caller with its
  own, unmodified list.
- Python exceptions are modelled explicitly: `Except.error` at the host
  layer stands for a raised exception escaping to the caller, while
  `Result.Err` is the Outcome failure value of result.py.
- Error-message strings from the source interpolate values and use quote
  characters; the embedding abbreviates the message text. No claim
  depends on the exact text of an error message, only on which
  constructor (Ok or Err, ok or error) arises and at which position.
- Unbounded recursion / unbounded while loops in Python are modelled with
  an explicit fuel argument; a dedicated out-of-fuel outcome marks that
  the computation did not finish within the given number of steps.
-/

namespace PH

/-! ## result.py -/

/-- The two-variant result type of result.py: `Ok` carries a success
value, `Err` carries arbitrary error data. -/
inductive Result (T : Type) (E : Type) where
  | Ok (value : T)
  | Err (error : E)

/-- `Ok.is_ok` / `Err.is_ok` from result.py. -/
def Result.is_ok : Result T E → Bool
  | .Ok _ => true
  | .Err _ => false

/-- `Ok.is_err` / `Err.is_err` from result.py. -/
def Result.is_err : Result T E → Bool
  | .Ok _ => false
  | .Err _ => true

/-- `Result.map` from result.py: transform the success payload, pass a
failure through unchanged. -/
def Result.map (op : T → U) : Result T E → Result U E
  | .Ok v => .Ok (op v)
  | .Err e => .Err e

/-! ## parser_combinator.py -/

/-- A parse success is the parsed value together with the rest of the
input (`ParseSuccess` in parser_combinator.py). -/
abbrev ParseSuccess (T : Type) := T × List Char

/-- `ParseError` in parser_combinator.py is an error-message string. -/
abbrev ParseError := String

/-- `ParseResult` in parser_combinator.py. -/
abbrev ParseResult (T : Type) := Result (ParseSuccess T) ParseError

/-- A parser is a function from input to a ParseResult. The `name` field
and the debug-trace machinery of the Python class are diagnostic only and
do not affect parse results, so they are not modelled (except for the one
place where the name machinery crashes, see `or_elseOptX` below). -/
def Parser (T : Type) := List Char → ParseResult T

/-- The whitespace set stripped by Python str.lstrip. -/
def isPySpace (c : Char) : Bool :=
  c = ' ' || c = '\t' || c = '\n' || c = '\r' || c = '\x0b' || c = '\x0c'

/-- `Parser.map`: apply a function to the result of the parser. -/
def Parser.map (p : Parser T) (f : T → U) : Parser U := fun input =>
  match p input with
  | .Ok (value, rest) => .Ok (f value, rest)
  | .Err e => .Err e

/-- `Parser.then`: apply the current parser, then the next parser,
returning the pair of both outputs. (`then` is a Lean keyword, hence the
trailing underscore.) -/
def Parser.then_ (p : Parser T) (f : Parser U) : Parser (T × U) := fun input =>
  match p input with
  | .Ok (v1, rest) => (f rest).map (fun res => ((v1, res.1), res.2))
  | .Err e => .Err e

/-- `Parser.ignore_then`: sequence, keep only the second value. -/
def Parser.ignore_then (p : Parser T) (f : Parser U) : Parser U :=
  (p.then_ f).map (fun x => x.2)

/-- `Parser.then_ignore`: sequence, keep only the first value. -/
def Parser.then_ignore (p : Parser T) (f : Parser U) : Parser T :=
  (p.then_ f).map (fun x => x.1)

/-- `Parser.or_else`: apply the current parser; if it fails, apply the
next parser to the original input. The Python signature is heterogeneous
(`Union[T, U]`); every use in the grammar instantiates it homogeneously,
which is what is modelled. -/
def Parser.or_else (p : Parser T) (f : Parser T) : Parser T := fun input =>
  match p input with
  | .Err _ => f input
  | ok => ok

/-- `Parser.padded`: strip leading whitespace, then apply the parser. -/
def Parser.padded (p : Parser T) : Parser T := fun input =>
  p (input.dropWhile isPySpace)

/-- `Parser.between`: delimiter, value, delimiter; keep the value. -/
def Parser.between (p : Parser T) (d1 : Parser A) (d2 : Parser B) : Parser T :=
  (d1.ignore_then p).then_ignore d2

/-- The while loop shared by `Parser.repeated` and `Parser.sep_by`:
starting from accumulated `values` and position `rest`, repeatedly run
`p`; on failure return the values and the position of the last success.
The fuel argument counts loop iterations; `none` means the loop did not
exit within `fuel` iterations. The Python loop has no fuel: where this
function returns `none` for every fuel, the Python program loops
forever. -/
def parseLoop (p : Parser T) : Nat → List T → List Char → Option (List T × List Char)
  | 0, _, _ => none
  | n + 1, values, rest =>
    match p rest with
    | .Err _ => some (values, rest)
    | .Ok (v, rest') => parseLoop p n (values ++ [v]) rest'

/-- `Parser.repeated`: repeat the parser until it fails; never fails.
Fuel `input.length + 1` suffices for every parser that consumes at least
one character whenever it succeeds, which holds for every parser this
grammar passes to `repeated`; for a parser that can succeed on zero
characters the Python loop never exits (the fallback branch stands for a
computation the Python program never completes). -/
def Parser.repeated (p : Parser T) : Parser (List T) := fun input =>
  match parseLoop p (input.length + 1) [] input with
  | some (values, rest) => .Ok (values, rest)
  | none => .Err "repeated does not terminate"

/-- `Parser.sep_by`: zero or more occurrences separated by a delimiter;
never fails; yields the empty list when the first item fails. After the
first item, each further step parses `delimiter.ignore_then(self)`. The
same fuel remark as for `repeated` applies. -/
def Parser.sep_by (p : Parser T) (delimiter : Parser D) : Parser (List T) := fun input =>
  match p input with
  | .Err _ => .Ok ([], input)
  | .Ok (v, rest) =>
    match parseLoop (delimiter.ignore_then p) (input.length + 1) [v] rest with
    | some (values, rest') => .Ok (values, rest')
    | none => .Err "sep_by does not terminate"

/-- `Parser.or_not`: apply the parser; on failure succeed with `None`
(modelled as `Option.none`) and the original input. -/
def Parser.or_not (p : Parser T) : Parser (Option T) := fun input =>
  match p input with
  | .Ok (v, rest) => .Ok (some v, rest)
  | .Err _ => .Ok (none, input)

/-- `Parser.eof`: apply the parser, then succeed only if no input
remains; otherwise fail. -/
def Parser.eof (p : Parser T) : Parser T := fun input =>
  match p input with
  | .Ok (v, []) => .Ok (v, [])
  | _ => .Err "Expected EOF"

/-- `Parser.char`: parse one character satisfying the predicate. -/
def Parser.char (f : Char → Bool) : Parser Char := fun input =>
  match input with
  | c :: rest => if f c then .Ok (c, rest) else .Err "Expected a matching character"
  | [] => .Err "Expected a matching character"

/-- `Parser.just`: parse a specific token; succeeds iff the input starts
with it. -/
def Parser.just (token : List Char) : Parser (List Char) := fun input =>
  if token.isPrefixOf input then .Ok (token, input.drop token.length)
  else .Err ("Expected " ++ String.mk token ++ ", found " ++ String.mk (input.take (token.length + 5)))

/-- `Parser.accumulate_while`: collect characters while the predicate
holds; always succeeds (possibly with an empty collection). -/
def Parser.accumulate_while (f : Char → Bool) : Parser (List Char) := fun input =>
  let collected := input.takeWhile f
  .Ok (collected, input.drop collected.length)

/-- Decimal digit run to a natural number, as Python `int` on a digit
string. -/
def strToNat (s : List Char) : Nat :=
  s.foldl (fun acc c => acc * 10 + (c.toNat - 48)) 0

/-- `Parser.number`: a digit run via `accumulate_while`, failing on an
empty run, otherwise the integer value. -/
def Parser.number : Parser Int := fun input =>
  match Parser.accumulate_while (fun c => c.isDigit) input with
  | .Ok (num, rest) =>
    if num = [] then .Err "Expected a number" else .Ok ((strToNat num : Int), rest)
  | .Err _ => .Err "Expected a number"

/-- `Parser.ident`: a letter followed by alphanumeric characters. -/
def Parser.ident : Parser (List Char) := fun input =>
  match input with
  | c :: rest =>
    if c.isAlpha then
      let tailw := rest.takeWhile (fun ch => ch.isAlphanum)
      .Ok (c :: tailw, rest.drop tailw.length)
    else .Err "Expected a word"
  | [] => .Err "Expected a word"

/-! ## ast_.py: the AST -/

/-- Expression variants of ast_.py. `NumberLiteral` carries the Python
int, `Identifier` the name string, `BinaryExpression` the operator as a
string, `CallExpression` an arbitrary callee expression and the argument
list. -/
inductive Expression where
  | NumberLiteral (value : Int)
  | Identifier (ident : String)
  | BinaryExpression (left : Expression) (operator : String) (right : Expression)
  | CallExpression (callee : Expression) (arguments : List Expression)

/-- Statement variants of ast_.py. `IfStatement.else_block` is an
`Option`: the Python constructor stores the given block when it is
truthy and the empty list (falsy, modelled `none`) otherwise, and the
evaluator tests it for truthiness. The blocks inside `IfStatement` and
`WhileStatement` are `BlockStatement` values in every tree the grammar
produces. -/
inductive Statement where
  | VarSetStatement (name : String) (rhs : Expression)
  | ReturnStatement (expression : Expression)
  | ExpressionStatement (expression : Expression)
  | BlockStatement (statements : List Statement)
  | IfStatement (condition : Expression) (then_block : Statement) (else_block : Option Statement)
  | WhileStatement (condition : Expression) (block : Statement)

/-- A function declaration: name and parameters are `Identifier` nodes
(as produced by the grammar), the body a `BlockStatement`. -/
structure FunctionDeclaration where
  name : Expression
  parameters : List Expression
  body : Statement

/-- A program is a list of function declarations. -/
structure Program where
  funcs : List FunctionDeclaration

/-! ## ast_.py: the expression grammar -/

/-- `p = lambda x: Parser.just(x).padded()` from ast_.py. -/
def pTok (x : String) : Parser (List Char) := (Parser.just x.data).padded

/-- `padded_ident` from ast_.py: a padded identifier mapped to an
`Identifier` node. -/
def padded_ident : Parser Expression :=
  Parser.ident.padded.map (fun s => Expression.Identifier (String.mk s))

/-- The attribute access `t[0].ident` used by the var-set statement
parser; `padded_ident` always yields an `Identifier` node, so the
catch-all arm (an AttributeError in Python) is unreachable from the
grammar. -/
def Expression.identName : Expression → String
  | .Identifier s => s
  | _ => ""

/-- `foldl` from ast_.py `create_expr`: left-fold a head expression and a
list of (operator, operand) pairs into left-associated binary nodes. -/
def foldlBin (t : Expression × List (List Char × Expression)) : Expression :=
  t.2.foldl (fun left oe => Expression.BinaryExpression left (String.mk oe.1) oe.2) t.1

/-- `create_expr` from ast_.py: builds the expression grammar given a
reference to the full expression parser (the argument of
`Parser.recursive`). The comparison level tries the operator
alternatives in source order: `==`, `!=`, then `<` or `>`, then `<=` or
`>=`. -/
def create_expr (expr : Parser Expression) : Parser Expression :=
  let num : Parser Expression := Parser.number.padded.map Expression.NumberLiteral
  let atom : Parser Expression :=
    (num.or_else padded_ident).or_else (expr.between (pTok "(") (pTok ")"))
  let call : Parser Expression :=
    (((atom.then_ignore (pTok "(")).then_ (expr.sep_by (pTok ","))).then_ignore (pTok ")")).map
      (fun t => Expression.CallExpression t.1 t.2)
  let atom_or_call := call.or_else atom
  let unary : Parser Expression :=
    (((pTok "-").repeated.map (fun l => if l.length % 2 == 0 then (1 : Int) else -1)).then_
        atom_or_call).map
      (fun x =>
        if x.1 == -1 then Expression.BinaryExpression (Expression.NumberLiteral x.1) "*" x.2
        else x.2)
  let product : Parser Expression :=
    (unary.then_ ((((pTok "*").or_else (pTok "/")).then_ unary).repeated)).map foldlBin
  let sum : Parser Expression :=
    (product.then_ ((((pTok "+").or_else (pTok "-")).then_ product).repeated)).map foldlBin
  let compare : Parser Expression :=
    (sum.then_
        (((((pTok "==").or_else (pTok "!=")).or_else ((pTok "<").or_else (pTok ">"))).or_else
              ((pTok "<=").or_else (pTok ">="))).then_ sum).repeated).map
      foldlBin
  ((compare.or_else sum).or_else product).or_else unary

/-- `expr = Parser.recursive(create_expr)` from ast_.py, modelled by
finite unrolling: fuel counts how many times the recursive reference may
be re-entered. For any concrete input, a large enough fuel computes the
same answer as the Python parser. -/
def exprP : Nat → Parser Expression
  | 0 => fun _ => Result.Err "recursion depth exceeded"
  | n + 1 => create_expr (exprP n)

/-! ## ast_.py: the statement grammar

The statement grammar is modelled with an explicit host-exception
channel: a `ParserX` returns `Except.error e` when running it raises a
Python exception that escapes the combinator machinery (as opposed to
returning an `Err` Outcome value). This channel is needed because
ast_.py line 192 sets `while_stmt = None` (a TODO) and line 196 passes
that `None` to `or_else`, whose body interpolates `f.name` into the
combined parser name and therefore raises AttributeError. -/

/-- A parser whose invocation may raise a host exception
(`Except.error`) instead of returning a ParseResult. -/
def ParserX (T : Type) := List Char → Except String (ParseResult T)

/-- Lift an exception-free parser into the exception-aware layer. -/
def liftX (p : Parser T) : ParserX T := fun input => .ok (p input)

/-- `Parser.map` at the exception-aware layer. -/
def ParserX.map (p : ParserX T) (f : T → U) : ParserX U := fun input =>
  match p input with
  | .error e => .error e
  | .ok (.Ok (value, rest)) => .ok (.Ok (f value, rest))
  | .ok (.Err e) => .ok (.Err e)

/-- `Parser.then` at the exception-aware layer. -/
def ParserX.then_ (p : ParserX T) (f : ParserX U) : ParserX (T × U) := fun input =>
  match p input with
  | .error e => .error e
  | .ok (.Err e) => .ok (.Err e)
  | .ok (.Ok (v1, rest)) =>
    match f rest with
    | .error e => .error e
    | .ok (.Err e) => .ok (.Err e)
    | .ok (.Ok (v2, rest')) => .ok (.Ok ((v1, v2), rest'))

/-- `Parser.ignore_then` at the exception-aware layer. -/
def ParserX.ignore_then (p : ParserX T) (f : ParserX U) : ParserX U :=
  (p.then_ f).map (fun x => x.2)

/-- `Parser.then_ignore` at the exception-aware layer. -/
def ParserX.then_ignore (p : ParserX T) (f : ParserX U) : ParserX T :=
  (p.then_ f).map (fun x => x.1)

/-- `Parser.or_else` at the exception-aware layer. -/
def ParserX.or_else (p : ParserX T) (f : ParserX T) : ParserX T := fun input =>
  match p input with
  | .error e => .error e
  | .ok (.Err _) => f input
  | ok => ok

/-- `Parser.or_not` at the exception-aware layer. -/
def ParserX.or_not (p : ParserX T) : ParserX (Option T) := fun input =>
  match p input with
  | .error e => .error e
  | .ok (.Ok (v, rest)) => .ok (.Ok (some v, rest))
  | .ok (.Err _) => .ok (.Ok (none, input))

/-- `Parser.between` at the exception-aware layer. -/
def ParserX.between (p : ParserX T) (d1 : ParserX A) (d2 : ParserX B) : ParserX T :=
  (d1.ignore_then p).then_ignore d2

/-- The `repeated` loop at the exception-aware layer: an exception
raised by the repeated parser propagates out of the loop. -/
def parseLoopX (p : ParserX T) : Nat → List T → List Char → Except String (Option (List T × List Char))
  | 0, _, _ => .ok none
  | n + 1, values, rest =>
    match p rest with
    | .error e => .error e
    | .ok (.Err _) => .ok (some (values, rest))
    | .ok (.Ok (v, rest')) => parseLoopX p n (values ++ [v]) rest'

/-- `Parser.repeated` at the exception-aware layer (same fuel remark as
for `Parser.repeated`). -/
def ParserX.repeated (p : ParserX T) : ParserX (List T) := fun input =>
  match parseLoopX p (input.length + 1) [] input with
  | .error e => .error e
  | .ok (some (values, rest)) => .ok (.Ok (values, rest))
  | .ok none => .ok (.Err "repeated does not terminate")

/-- `Parser.eof` at the exception-aware layer. -/
def ParserX.eof (p : ParserX T) : ParserX T := fun input =>
  match p input with
  | .error e => .error e
  | .ok (.Ok (v, [])) => .ok (.Ok (v, []))
  | .ok _ => .ok (.Err "Expected EOF")

/-- The message of the AttributeError raised when `or_else` receives
`None` (text abbreviated; Python says NoneType has no attribute name). -/
def attributeError : String := "AttributeError: NoneType has no attribute name"

/-- `Parser.or_else` applied to a possibly-`None` right alternative, as
in `stmt = ... .or_else(while_stmt)` with `while_stmt = None`: building
the combined parser interpolates `f.name` into its name, so a `None`
argument raises AttributeError before any input is parsed. -/
def or_elseOptX (p : ParserX T) : Option (ParserX T) → Except String (ParserX T)
  | some q => .ok (p.or_else q)
  | none => .error attributeError

/-- `var_set_stmt` from ast_.py line 183, with the expression grammar at
unrolling fuel `ef`. -/
def var_set_stmt (ef : Nat) : Parser Statement :=
  ((padded_ident.then_ignore (pTok "=")).then_ (exprP ef)).map
    (fun t => Statement.VarSetStatement t.1.identName t.2)

/-- `return_stmt` from ast_.py line 184. -/
def return_stmt (ef : Nat) : Parser Statement :=
  ((pTok "return").ignore_then (exprP ef)).map Statement.ReturnStatement

/-- `while_stmt = None` — ast_.py line 192, the TODO left in the source:
there is no while-statement parser. -/
def while_stmt : Option (ParserX Statement) := none

/-- `create_stmt_block` from ast_.py lines 186-200, given the recursive
block-parser reference. Building `stmt` chains `or_else` through
`while_stmt`; since `while_stmt` is `None`, that construction raises
AttributeError (see `or_elseOptX`), so the function never returns a
parser. The code after that line mirrors the source and is
unreachable. -/
def create_stmt_block (ef : Nat) (stmt_block : ParserX Statement) :
    Except String (ParserX Statement) :=
  let if_stmt : ParserX Statement :=
    ((((liftX (pTok "if")).ignore_then (liftX (exprP ef))).then_ stmt_block).then_
          (((liftX (pTok "else")).ignore_then stmt_block).or_not)).map
      (fun t => Statement.IfStatement t.1.1 t.1.2 t.2)
  match or_elseOptX ((liftX (return_stmt ef)).or_else if_stmt) while_stmt with
  | .error e => .error e
  | .ok stmt0 =>
    let stmt : ParserX Statement :=
      (stmt0.or_else (liftX (var_set_stmt ef))).or_else
        ((liftX (exprP ef)).map Statement.ExpressionStatement)
    .ok
      ((((stmt.then_ignore (liftX (pTok ";"))).repeated).between (liftX (pTok "\x7b"))
            (liftX (pTok "\x7d"))).map
        Statement.BlockStatement)

/-- `stmt_block = Parser.recursive(create_stmt_block)` from ast_.py:
each invocation re-enters `create_stmt_block` with the recursive
reference (finite unrolling fuel as for `exprP`); `ef` is the expression
fuel. Since `create_stmt_block` raises AttributeError, so does every
invocation of the block parser. -/
def stmt_blockX (ef : Nat) : Nat → ParserX Statement
  | 0 => fun _ => .error "recursion depth exceeded"
  | n + 1 => fun input =>
    match create_stmt_block ef (stmt_blockX ef n) with
    | .error e => .error e
    | .ok pb => pb input

/-- `fn_statement` from ast_.py lines 203-206: keyword, name, parameter
list, body block. -/
def fn_statement (ef sf : Nat) : ParserX FunctionDeclaration :=
  ((((liftX (pTok "fn")).ignore_then (liftX padded_ident)).then_
        (liftX ((padded_ident.sep_by (pTok ",")).between (pTok "(") (pTok ")")))).then_
      (stmt_blockX ef sf)).map
    (fun t => ⟨t.1.1, t.1.2, t.2⟩)

/-- `program_parser` from ast_.py line 208: zero or more function
declarations. -/
def programP (ef sf : Nat) : ParserX Program :=
  (fn_statement ef sf).repeated.map Program.mk

/-- `parse` from ast_.py lines 210-211:
`parsed, _ = (program_parser.eof())(s).unwrap()`. An exception raised
while parsing propagates (first arm); `unwrap` on an `Ok` Outcome yields
the program; `unwrap` on an `Err` Outcome raises `Exception(error)`,
modelled as `Except.error` — the caller of `parse` receives a raised
exception, not an Outcome value. -/
def parseProgram (ef sf : Nat) (s : List Char) : Except String Program :=
  match (programP ef sf).eof s with
  | .error e => .error e
  | .ok (.Ok (parsed, _)) => .ok parsed
  | .ok (.Err e) => .error e

/-! ## interpreter.py: the evaluator

Runtime values flowing through `interpret` are Python ints, floats
(produced by the `/` operator), and `None` (produced by statements, by
`print` calls, and by function bodies that finish without `return`).
Python floats are modelled as exact rationals; this is exact at every
input used in the theorems below, and no theorem relies on the payload
of an inexactly-representable float — only on the int/float distinction.

Dictionary keys: `variables[name] = ...` in the VarSetStatement arm uses
the plain string `name`, while the Identifier arm reads
`variables[ident]` with the `Identifier` node as the key, and parameters
are bound with `Identifier` nodes as keys; `Identifier.__eq__` only ever
equals another `Identifier`, so string keys and Identifier keys never
collide. The `Key` type models the two key species. -/

/-- A Python runtime value of this interpreter. -/
inductive Value where
  | int (n : Int)
  | float (q : Rat)
  | none
deriving DecidableEq

/-- Python truthiness of the values above: zero and `None` are falsy. -/
def Value.truthy : Value → Bool
  | .int n => n != 0
  | .float q => q != 0
  | .none => false

/-- Numeric view: ints and floats are numbers, `None` is not. -/
def Value.toRat : Value → Option Rat
  | .int n => some (n : Rat)
  | .float q => some q
  | .none => Option.none

/-- Whether a value is a Python int. -/
def Value.isInt : Value → Bool
  | .int _ => true
  | _ => false

/-- A dictionary key: either a plain string (VarSetStatement writes) or
an `Identifier` node keyed by its name (parameter bindings, function
names, Identifier reads). The two species never compare equal, exactly
as in Python. -/
inductive Key where
  | str (s : String)
  | ident (s : String)
deriving DecidableEq

/-- The dictionary key under which an AST node is stored: grammar-built
function names and parameters are always `Identifier` nodes. (A
non-Identifier node would be keyed by object identity in Python; no such
node reaches a key position in this program.) -/
def paramKey : Expression → Key
  | .Identifier s => .ident s
  | _ => .ident ""

/-- Association-list lookup, modelling `d[k]` returning `none` where
Python raises KeyError. -/
def alookup [DecidableEq K] : List (K × V) → K → Option V
  | [], _ => Option.none
  | (k0, v0) :: rest, k => if k0 = k then some v0 else alookup rest k

/-- Association-list store, modelling `d[k] = v`: replace an existing
binding, else append. -/
def ainsert [DecidableEq K] : List (K × V) → K → V → List (K × V)
  | [], k, v => [(k, v)]
  | (k0, v0) :: rest, k, v =>
    if k0 = k then (k, v) :: rest else (k0, v0) :: ainsert rest k v

/-- `d.update(kvs)`: store each pair in order (later pairs win, as for
`dict(zip(...))` followed by `update`). -/
def aupdate [DecidableEq K] (d : List (K × V)) (kvs : List (K × V)) : List (K × V) :=
  kvs.foldl (fun acc kv => ainsert acc kv.1 kv.2) d

/-- The variable environment: name-to-value dictionary. -/
abbrev Env := List (Key × Value)

/-- The function table: name-to-declaration dictionary. -/
abbrev FTable := List (Key × FunctionDeclaration)

/-- The threaded evaluator state: the variables dictionary, the (single,
shared) functions dictionary, and the values printed so far. -/
structure St where
  vars : Env
  funcs : FTable
  out : List Value

/-- A fatal host-level error aborting the run: a KeyError from a missing
dictionary key (undefined variable or function), a TypeError from
arithmetic on `None`, ZeroDivisionError, IndexError from `print()` with
no arguments, or an explicit `print(...); exit(1)` in the source. -/
inductive Fatal where
  | keyError (k : Key)
  | typeError
  | zeroDivisionError
  | indexError
  | exitOne (msg : String)
deriving DecidableEq

/-- Outcome of one `interpret` call: a normal result value with the
state left behind, an EarlyReturn exception in flight, a fatal abort, or
fuel exhaustion (the Python recursion did not finish within the given
depth). -/
inductive Out where
  | ok (v : Value) (s : St)
  | ret (v : Value) (s : St)
  | fatal (e : Fatal)
  | outOfFuel

/-- Outcome of evaluating an argument list: the collected values, or an
abrupt outcome propagating out of the list comprehension. -/
inductive ArgsRes where
  | vals (values : List Value) (s : St)
  | stop (o : Out)

/-- Python `+` on these values: int+int is an int; any int/float mix is
a float; `None` as an operand is a TypeError. -/
def pyAdd : Value → Value → Except Fatal Value
  | .int a, .int b => .ok (.int (a + b))
  | l, r =>
    match l.toRat, r.toRat with
    | some a, some b => .ok (.float (a + b))
    | _, _ => .error .typeError

/-- Python `-`, with the same typing rules as `+`. -/
def pySub : Value → Value → Except Fatal Value
  | .int a, .int b => .ok (.int (a - b))
  | l, r =>
    match l.toRat, r.toRat with
    | some a, some b => .ok (.float (a - b))
    | _, _ => .error .typeError

/-- Python `*`, with the same typing rules as `+`. -/
def pyMul : Value → Value → Except Fatal Value
  | .int a, .int b => .ok (.int (a * b))
  | l, r =>
    match l.toRat, r.toRat with
    | some a, some b => .ok (.float (a * b))
    | _, _ => .error .typeError

/-- Python `/`: true division. The result is always a float (also for
two int operands); a zero divisor raises ZeroDivisionError; `None` as an
operand is a TypeError. -/
def pyDiv (l r : Value) : Except Fatal Value :=
  match l.toRat, r.toRat with
  | some a, some b =>
    if b = 0 then .error .zeroDivisionError else .ok (.float (a / b))
  | _, _ => .error .typeError

/-- Python `==` on these values: numeric cross-type equality, `None`
equal only to `None`; never an error. -/
def pyEq : Value → Value → Bool
  | .none, .none => true
  | l, r =>
    match l.toRat, r.toRat with
    | some a, some b => a == b
    | _, _ => false

/-- A Python order comparison, yielding the interpreter result `1` or
`0`; `None` as an operand is a TypeError. -/
def pyCmp (f : Rat → Rat → Bool) (l r : Value) : Except Fatal Value :=
  match l.toRat, r.toRat with
  | some a, some b => .ok (.int (if f a b then 1 else 0))
  | _, _ => .error .typeError

/-- The operator dispatch of the BinaryExpression arm, interpreter.py
lines 64-86, in source order; an unknown operator prints a message and
exits. -/
def evalBinOp (operator : String) (l r : Value) : Except Fatal Value :=
  if operator = "+" then pyAdd l r
  else if operator = "-" then pySub l r
  else if operator = "*" then pyMul l r
  else if operator = "/" then pyDiv l r
  else if operator = "<" then pyCmp (fun a b => decide (a < b)) l r
  else if operator = ">" then pyCmp (fun a b => decide (b < a)) l r
  else if operator = "==" then .ok (.int (if pyEq l r then 1 else 0))
  else if operator = "!=" then .ok (.int (if pyEq l r then 0 else 1))
  else if operator = "<=" then pyCmp (fun a b => decide (a ≤ b)) l r
  else if operator = ">=" then pyCmp (fun a b => decide (b ≤ a)) l r
  else .error (.exitOne "Unknown operator")

mutual

/-- `interpret` on expression nodes, interpreter.py lines 57-114. The
fuel bounds the number of evaluation steps (it decreases on every
recursive call, including the steps of the statement and argument loops);
Python has no such bound, and `outOfFuel` marks a computation that did
not finish within the bound. The CallExpression arm: a non-Identifier
callee aborts; the arguments are all evaluated first; a callee named
`print` is intercepted before any function-table lookup, prints the
first argument value and yields `None`; otherwise the callee is looked
up, a copy of the current variables is extended with the parameters
zipped against the argument values, the body is interpreted in that
child scope with EarlyReturn caught at this boundary, and the caller
resumes with its own variables. -/
def interpExpr : Nat → Expression → St → Out
  | 0, _, _ => .outOfFuel
  | _ + 1, .NumberLiteral v, s => .ok (.int v) s
  | _ + 1, .Identifier name, s =>
    match alookup s.vars (.ident name) with
    | some v => .ok v s
    | Option.none => .fatal (.keyError (.ident name))
  | n + 1, .BinaryExpression l op r, s =>
    match interpExpr n l s with
    | .ok lv s1 =>
      match interpExpr n r s1 with
      | .ok rv s2 =>
        match evalBinOp op lv rv with
        | .ok v => .ok v s2
        | .error e => .fatal e
      | other => other
    | other => other
  | n + 1, .CallExpression callee args, s =>
    match callee with
    | .Identifier fname =>
      match interpArgs n args s with
      | .stop o => o
      | .vals argvals s1 =>
        if fname = "print" then
          match argvals with
          | [] => .fatal .indexError
          | v :: _ => .ok .none { s1 with out := s1.out ++ [v] }
        else
          match alookup s1.funcs (.ident fname) with
          | Option.none => .fatal (.keyError (.ident fname))
          | some fn_decl =>
            let child := aupdate s1.vars
              ((fn_decl.parameters.zip argvals).map (fun pv => (paramKey pv.1, pv.2)))
            match interpStmt n fn_decl.body { vars := child, funcs := s1.funcs, out := s1.out } with
            | .ok v s2 => .ok v { vars := s1.vars, funcs := s2.funcs, out := s2.out }
            | .ret v s2 => .ok v { vars := s1.vars, funcs := s2.funcs, out := s2.out }
            | .fatal e => .fatal e
            | .outOfFuel => .outOfFuel
    | _ => .fatal (.exitOne "Invalid callee")

/-- The list comprehension `[interpret(arg, ...) for arg in arguments]`:
each element is a fresh recursive call, an abrupt outcome escapes the
comprehension. -/
def interpArgs : Nat → List Expression → St → ArgsRes
  | _, [], s => .vals [] s
  | 0, _ :: _, _ => .stop .outOfFuel
  | n + 1, e :: rest, s =>
    match interpExpr n e s with
    | .ok v s1 =>
      match interpArgs n rest s1 with
      | .vals vs s2 => .vals (v :: vs) s2
      | .stop o => .stop o
    | other => .stop other

/-- `interpret` on statement nodes, interpreter.py lines 33-53. A
return statement raises EarlyReturn (`.ret`). An if statement evaluates
its condition and interprets the taken block in the same environment (no
copy). interpreter.py has no WhileStatement arm — the TODO at line 53 —
so a while node falls through to the catch-all at lines 116-118, which
prints a message and exits. -/
def interpStmt : Nat → Statement → St → Out
  | 0, _, _ => .outOfFuel
  | n + 1, .VarSetStatement name rhs, s =>
    match interpExpr n rhs s with
    | .ok v s1 => .ok .none { s1 with vars := ainsert s1.vars (.str name) v }
    | other => other
  | n + 1, .ReturnStatement e, s =>
    match interpExpr n e s with
    | .ok v s1 => .ret v s1
    | other => other
  | n + 1, .ExpressionStatement e, s => interpExpr n e s
  | n + 1, .BlockStatement stmts, s => interpStmts n stmts s
  | n + 1, .IfStatement cond then_block else_block, s =>
    match interpExpr n cond s with
    | .ok v s1 =>
      if v.truthy then interpStmt n then_block s1
      else
        match else_block with
        | some b => interpStmt n b s1
        | Option.none => .ok .none s1
    | other => other
  | _ + 1, .WhileStatement _ _, _ => .fatal (.exitOne "Unknown AST node")

/-- The `for statement in statements` loop of the BlockStatement arm: an
exception (EarlyReturn or fatal) propagates without executing the
remaining statements; falling off the end returns `None`. -/
def interpStmts : Nat → List Statement → St → Out
  | _, [], s => .ok .none s
  | 0, _ :: _, _ => .outOfFuel
  | n + 1, st :: rest, s =>
    match interpStmt n st s with
    | .ok _ s1 => interpStmts n rest s1
    | other => other

end

/-- `interpret` on a Program node, interpreter.py lines 20-25: register
every function declaration in the (shared) functions dictionary — each
iteration is the FunctionDeclaration arm, a table store keyed by the
name Identifier — then interpret a call to `main`. -/
def interpProgram (n : Nat) (prog : Program) (s : St) : Out :=
  let funcs := prog.funcs.foldl (fun ft f => ainsert ft (paramKey f.name) f) s.funcs
  interpExpr n (.CallExpression (.Identifier "main") []) { s with funcs := funcs }

/-! ## Auxiliary definitions for the theorems -/

/-- The initial evaluator state: empty variables, empty function table,
nothing printed. -/
def emptySt : St := ⟨[], [], []⟩

/-- A statement that must never run in the early-return experiments: it
reads an identifier that is bound in no test environment, so executing
it would produce a KeyError rather than an early return. -/
def boomStmt : Statement := .ExpressionStatement (.Identifier "unreached")

/-- Wrap a statement in `k` layers of `if 1 ... ` blocks, each layer
placing `boomStmt` after the wrapped statement in its block: statements
that an early return must skip. -/
def nestIf : Nat → Statement → Statement
  | 0, st => st
  | k + 1, st =>
    .IfStatement (.NumberLiteral 1) (.BlockStatement [nestIf k st, boomStmt]) Option.none

/-! ## Claim theorems -/

/-- C1, counterexample: the claim says a variable declared inside the
body of an if is not present in the enclosing environment after the
block exits. In the code the IfStatement arm interprets the taken block
directly in the current environment, so after executing
`if 1 then y = 5` from the empty environment the binding of `y` IS
present in the enclosing environment. -/
theorem c1_block_scope_counterexample :
    interpStmt 6 (.IfStatement (.NumberLiteral 1)
        (.BlockStatement [.VarSetStatement "y" (.NumberLiteral 5)]) Option.none) emptySt
      = .ok .none ⟨[(Key.str "y", Value.int 5)], [], []⟩ := rfl

/-- C1, amended: only a call body is entered with a copy of the current
environment; the body of an if (and the body a while would have, were it
implemented) is interpreted directly in the enclosing environment, so
declarations made there remain after the block exits. First conjunct:
executing an if with a true condition leaves exactly the state the block
body produced, with no restoration of the previous environment. Second
conjunct: a call to a declared zero-parameter function interprets the
body on a copy of the caller variables and the caller resumes with its
own variables unchanged, keeping only the body's effect on the shared
function table and on the printed output. -/
theorem c1_block_scope_amended :
    (∀ (n : Nat) (stmts : List Statement) (s : St) (v : Value) (s2 : St),
        interpStmts n stmts s = .ok v s2 →
        interpStmt (n + 2)
            (.IfStatement (.NumberLiteral 1) (.BlockStatement stmts) Option.none) s
          = .ok v s2)
    ∧
    (∀ (n : Nat) (body : Statement) (vars : Env) (ft : FTable) (printed : List Value)
        (v : Value) (s2 : St),
        interpStmt n body ⟨vars, (Key.ident "g", ⟨.Identifier "g", [], body⟩) :: ft, printed⟩
            = .ok v s2 →
        interpExpr (n + 1) (.CallExpression (.Identifier "g") [])
            ⟨vars, (Key.ident "g", ⟨.Identifier "g", [], body⟩) :: ft, printed⟩
          = .ok v ⟨vars, s2.funcs, s2.out⟩) := by
  constructor
  · intro n stmts s v s2 h
    exact h
  · intro n body vars ft printed v s2 h
    simp only [interpExpr, interpArgs, alookup, aupdate, List.zip, List.zipWith, List.map,
      List.foldl, reduceIte]
    rw [h]
    rfl

/-- C1, witness for the amended theorem: declaring `z` inside an if-body
leaves `z` bound afterwards, while the same declaration inside the body
of the called function `g` does not survive the call. -/
theorem c1_block_scope_amended_witness :
    (interpStmt 6 (.IfStatement (.NumberLiteral 1)
        (.BlockStatement [.VarSetStatement "z" (.NumberLiteral 3)]) Option.none) emptySt
      = .ok .none ⟨[(Key.str "z", Value.int 3)], [], []⟩)
    ∧
    (interpExpr 6 (.CallExpression (.Identifier "g") [])
        ⟨[], [(Key.ident "g", ⟨.Identifier "g", [],
            .BlockStatement [.VarSetStatement "z" (.NumberLiteral 3)]⟩)], []⟩
      = .ok .none
          ⟨[], [(Key.ident "g", ⟨.Identifier "g", [],
              .BlockStatement [.VarSetStatement "z" (.NumberLiteral 3)]⟩)], []⟩) :=
  ⟨c1_block_scope_amended.1 4 [.VarSetStatement "z" (.NumberLiteral 3)] emptySt
      .none ⟨[(Key.str "z", Value.int 3)], [], []⟩ rfl,
   c1_block_scope_amended.2 5 (.BlockStatement [.VarSetStatement "z" (.NumberLiteral 3)])
      [] [] [] .none
      ⟨[(Key.str "z", Value.int 3)], [(Key.ident "g", ⟨.Identifier "g", [],
          .BlockStatement [.VarSetStatement "z" (.NumberLiteral 3)]⟩)], []⟩ rfl⟩

/-- C2: the claim says the statement grammar accepts `while EXPR BLOCK`
(and the other statement forms). In ast_.py `while_stmt = None` (a TODO)
and the statement alternatives chain `or_else` through it, which raises
AttributeError while constructing the parser, so invoking the statement
block parser raises on every input — in particular on a while statement
— and no statement form parses at all. -/
theorem c2_statement_grammar_crashes :
    (∀ (ef n : Nat) (input : List Char),
        stmt_blockX ef (n + 1) input = .error attributeError)
    ∧ stmt_blockX 9 9 "\x7b while 1 \x7b \x7d; \x7d".data = .error attributeError :=
  ⟨fun _ _ _ => rfl, rfl⟩

/-- C3: the claim says the evaluator loops on a WhileStatement.
interpreter.py has no WhileStatement arm (the TODO at line 53), so every
while node falls to the catch-all that prints an unknown-node message
and exits — even a loop whose condition is 0 and that should simply
complete. -/
theorem c3_while_not_implemented :
    ∀ (n : Nat) (cond : Expression) (block : Statement) (s : St),
      interpStmt (n + 1) (.WhileStatement cond block) s
        = .fatal (.exitOne "Unknown AST node") :=
  fun _ _ _ _ => rfl

/-- C4, counterexample: the claim says `/` on integer operands yields an
integer. Evaluating `5 / 2` yields the float `5/2 = 2.5`, which is not
an integer value. -/
theorem c4_division_counterexample :
    (interpExpr 2 (.BinaryExpression (.NumberLiteral 5) "/" (.NumberLiteral 2)) emptySt
      = .ok (.float (5 / 2)) emptySt)
    ∧ (Value.float (5 / 2)).isInt = false := ⟨rfl, rfl⟩

/-- C4, amended: `+ - *` on integer operands are integer arithmetic, but
`/` is Python true division: it always yields a float value (never an
integer, also when the quotient is exact), and a zero right operand
aborts the run with a fatal ZeroDivisionError — a reported fatal error,
not a silent result. -/
theorem c4_division_amended :
    ∀ (n : Nat) (a b : Int) (s : St),
      (interpExpr (n + 2) (.BinaryExpression (.NumberLiteral a) "+" (.NumberLiteral b)) s
        = .ok (.int (a + b)) s)
      ∧ (interpExpr (n + 2) (.BinaryExpression (.NumberLiteral a) "-" (.NumberLiteral b)) s
        = .ok (.int (a - b)) s)
      ∧ (interpExpr (n + 2) (.BinaryExpression (.NumberLiteral a) "*" (.NumberLiteral b)) s
        = .ok (.int (a * b)) s)
      ∧ (b ≠ 0 →
          interpExpr (n + 2) (.BinaryExpression (.NumberLiteral a) "/" (.NumberLiteral b)) s
            = .ok (.float ((a : Rat) / (b : Rat))) s)
      ∧ (b = 0 →
          interpExpr (n + 2) (.BinaryExpression (.NumberLiteral a) "/" (.NumberLiteral b)) s
            = .fatal .zeroDivisionError) := by
  intro n a b s
  refine ⟨rfl, rfl, rfl, ?_, ?_⟩
  · intro hb
    have hbq : ((b : Rat)) ≠ 0 := by exact_mod_cast hb
    have e1 : interpExpr (n + 2)
        (.BinaryExpression (.NumberLiteral a) "/" (.NumberLiteral b)) s
          = match (if ((b : Rat)) = 0 then (Except.error Fatal.zeroDivisionError)
                else Except.ok (Value.float ((a : Rat) / (b : Rat)))) with
            | .ok v => Out.ok v s
            | .error e => Out.fatal e := rfl
    rw [e1, if_neg hbq]
  · intro hb0
    subst hb0
    rfl

/-- C4, witness for the amended theorem at concrete inputs: `7 / 2`
yields the float `7/2`, and `1 / 0` is a fatal ZeroDivisionError. -/
theorem c4_division_witness :
    (interpExpr 2 (.BinaryExpression (.NumberLiteral 7) "/" (.NumberLiteral 2)) emptySt
      = .ok (.float ((7 : Rat) / (2 : Rat))) emptySt)
    ∧ (interpExpr 2 (.BinaryExpression (.NumberLiteral 1) "/" (.NumberLiteral 0)) emptySt
      = .fatal .zeroDivisionError) :=
  ⟨(c4_division_amended 0 7 2 emptySt).2.2.2.1 (by decide),
   (c4_division_amended 0 1 0 emptySt).2.2.2.2 rfl⟩

/-- C5: the claim says `repeated`/`sep_by` terminate on parsers that can
succeed while consuming zero characters. There is no zero-consumption
guard: `accumulate_while` with a predicate its first character fails
succeeds consuming nothing, and the shared loop of `repeated`/`sep_by`
then never reaches its exit condition — for every iteration bound and
every accumulator state the loop is still running, i.e. the Python while
loop runs forever. -/
theorem c5_repeated_loops_forever :
    ∀ (fuel : Nat) (acc : List (List Char)),
      parseLoop (Parser.accumulate_while (fun c => c.isDigit)) fuel acc "a".data
        = Option.none := by
  intro fuel
  induction fuel with
  | zero => intro _; rfl
  | succ n ih => intro acc; exact ih (acc ++ [[]])

/-- Helper: an if with condition `1` and a two-statement block reduces
to running the block body (three fuel steps: condition, block entry,
loop entry). -/
theorem step_if_true (M : Nat) (a b : Statement) (s : St) :
    interpStmt (M + 1 + 1 + 1)
        (.IfStatement (.NumberLiteral 1) (.BlockStatement [a, b]) Option.none) s
      = interpStmts (M + 1) [a, b] s := by
  simp only [interpStmt, interpExpr, Value.truthy]
  rfl

/-- C6: a return statement terminates the entire enclosing function
call. First conjunct: if a statement produces an EarlyReturn (given
enough fuel), then the same statement wrapped in arbitrarily many layers
of if/block nesting — each layer placing a further statement after it
that must not run — still produces that same EarlyReturn, skipping the
following statements. Second conjunct: at the call boundary the
EarlyReturn raised in the body is caught and its value becomes the
result of the call expression. -/
theorem c6_return_terminates_call :
    (∀ (m : Nat) (st : Statement) (s : St) (v : Value) (s2 : St),
        (∀ j, m ≤ j → interpStmt j st s = .ret v s2) →
        ∀ k, interpStmt (m + 3 * k) (nestIf k st) s = .ret v s2)
    ∧
    (∀ (n : Nat) (body : Statement) (vars : Env) (ft : FTable) (printed : List Value)
        (v : Value) (s2 : St),
        interpStmt n body ⟨vars, (Key.ident "f", ⟨.Identifier "f", [], body⟩) :: ft, printed⟩
            = .ret v s2 →
        interpExpr (n + 1) (.CallExpression (.Identifier "f") [])
            ⟨vars, (Key.ident "f", ⟨.Identifier "f", [], body⟩) :: ft, printed⟩
          = .ok v ⟨vars, s2.funcs, s2.out⟩) := by
  constructor
  · intro m st s v s2 h k
    induction k with
    | zero => exact h m (Nat.le_refl m)
    | succ k ih =>
      have h3 : m + 3 * (k + 1) = m + 3 * k + 1 + 1 + 1 := by ring
      rw [h3, nestIf, step_if_true]
      simp only [interpStmts]
      rw [ih]
  · intro n body vars ft printed v s2 h
    simp only [interpExpr, interpArgs, alookup, aupdate, List.zip, List.zipWith, List.map,
      List.foldl, reduceIte]
    rw [h]
    rfl

/-- C6, witness: a `return 7` nested under two if/block layers (each
followed by a statement that would be a KeyError if executed) yields the
EarlyReturn of 7 without touching the trailing statements, and a call to
a function whose body is `return 7` evaluates to 7. -/
theorem c6_return_terminates_call_witness :
    (interpStmt 8 (nestIf 2 (.ReturnStatement (.NumberLiteral 7))) emptySt
      = .ret (.int 7) emptySt)
    ∧
    (interpExpr 3 (.CallExpression (.Identifier "f") [])
        ⟨[], [(Key.ident "f", ⟨.Identifier "f", [], .ReturnStatement (.NumberLiteral 7)⟩)], []⟩
      = .ok (.int 7)
          ⟨[], [(Key.ident "f", ⟨.Identifier "f", [],
              .ReturnStatement (.NumberLiteral 7)⟩)], []⟩) := by
  constructor
  · exact c6_return_terminates_call.1 2 (.ReturnStatement (.NumberLiteral 7)) emptySt
      (.int 7) emptySt
      (fun j hj => by
        obtain ⟨j', rfl⟩ := Nat.exists_eq_add_of_le hj
        rw [Nat.add_comm 2 j']
        rfl) 2
  · exact c6_return_terminates_call.2 2 (.ReturnStatement (.NumberLiteral 7)) [] [] []
      (.int 7)
      ⟨[], [(Key.ident "f", ⟨.Identifier "f", [], .ReturnStatement (.NumberLiteral 7)⟩)], []⟩
      rfl

/-- C7: the claim says the comparison level parses `LEFT OP RIGHT` for
every operator including `<=` and `>=`. The operator alternatives try
`<` before `<=`, and `just` matches prefixes, so on `1 <= 2` the parser
consumes the `<`, fails to parse `= 2` as the right operand, and the
comparison loop stops: the expression parser yields only the literal `1`
and leaves ` <= 2` unconsumed, producing no binary node for `<=`. For
the single-character `<` the same grammar parses `1 < 2` completely. -/
theorem c7_comparison_longest_match :
    (exprP 1 "1 <= 2".data = .Ok (.NumberLiteral 1, " <= 2".data))
    ∧ (exprP 1 "1 < 2".data
        = .Ok (.BinaryExpression (.NumberLiteral 1) "<" (.NumberLiteral 2), [])) :=
  ⟨rfl, rfl⟩

/-- C8: when a parser fails on an input, `or_else` applies the right
alternative to the exact original input. Failures in this engine carry
no remaining-input component at all (an `Err` is only a message), so the
resumption point of `or_else` is the observable meaning of failure never
consuming input. -/
theorem c8_or_else_backtracks :
    ∀ (T : Type) (p f : Parser T) (input : List Char),
      (p input).is_err = true → p.or_else f input = f input := by
  intro T p f input h
  show (match p input with | .Err _ => f input | ok => ok) = f input
  cases hp : p input with
  | Ok v => rw [hp] at h; exact absurd h (by simp [Result.is_err])
  | Err e => rfl

/-- C8, witness: with the left alternative `just a` failing on input
`b`, `or_else` runs `just b` on the original input. -/
theorem c8_or_else_backtracks_witness :
    (Parser.just "a".data).or_else (Parser.just "b".data) "b".data
      = Parser.just "b".data "b".data :=
  c8_or_else_backtracks (List Char) (Parser.just "a".data) (Parser.just "b".data) "b".data rfl

/-- C9, counterexample: the claim says parse errors reach the caller of
the top-level parse function as Outcome failure values and never through
a raising mechanism. On the input `x` the program parser produces an
`Err` Outcome, and `parse` calls `unwrap` on it, which raises — the
caller receives a raised exception (`Except.error` in this model), not
an Outcome value. -/
theorem c9_parse_error_counterexample :
    parseProgram 1 1 "x".data = Except.error "Expected EOF" := rfl

/-- C9, amended: parse errors are propagated through the combinators as
Outcome failure values up to the top-level `parse`, which then unwraps
the Outcome; on failure the unwrap raises a host exception carrying the
error, so the caller of `parse` observes an exception rather than an
Outcome value. -/
theorem c9_parse_error_amended :
    ∀ (ef sf : Nat) (s : List Char) (e : String),
      (programP ef sf).eof s = .ok (.Err e) → parseProgram ef sf s = .error e := by
  intro ef sf s e h
  show (match (programP ef sf).eof s with
        | .error e => Except.error e
        | .ok (.Ok (parsed, _)) => Except.ok parsed
        | .ok (.Err e) => Except.error e) = Except.error e
  rw [h]

/-- C9, witness for the amended theorem: on input `y` the parser yields
an `Err` Outcome and `parse` raises with that error. -/
theorem c9_parse_error_amended_witness :
    parseProgram 2 2 "y".data = Except.error "Expected EOF" :=
  c9_parse_error_amended 2 2 "y".data "Expected EOF" rfl

/-- C10: a call whose callee is the identifier `print` evaluates all its
arguments, is intercepted before any function-table lookup (the
conclusion holds for every function table, including tables with a
`print` entry and tables without one), appends only the first argument
value to the output, and yields the host `None` as the call result; and
using a print call as an arithmetic operand is a fatal host TypeError
(adding `None` to an int), not an integer placeholder. -/
theorem c10_print_call :
    (∀ (n : Nat) (args : List Expression) (s : St) (v0 : Value) (vs : List Value) (s1 : St),
        interpArgs n args s = .vals (v0 :: vs) s1 →
        interpExpr (n + 1) (.CallExpression (.Identifier "print") args) s
          = .ok .none ⟨s1.vars, s1.funcs, s1.out ++ [v0]⟩)
    ∧
    (interpExpr 5 (.BinaryExpression
        (.CallExpression (.Identifier "print") [.NumberLiteral 2]) "+" (.NumberLiteral 1))
        emptySt
      = .fatal .typeError) := by
  constructor
  · intro n args s v0 vs s1 h
    simp only [interpExpr]
    rw [h]
    rfl
  · rfl

/-- C10, witness: `print(2, 3)` evaluates both arguments, prints only
`2`, and the call evaluates to `None`. -/
theorem c10_print_call_witness :
    interpExpr 5 (.CallExpression (.Identifier "print") [.NumberLiteral 2, .NumberLiteral 3])
        emptySt
      = .ok .none ⟨[], [], [Value.int 2]⟩ :=
  c10_print_call.1 4 [.NumberLiteral 2, .NumberLiteral 3] emptySt (.int 2) [.int 3] emptySt rfl

end PH
